import Mathlib

/-
Shallow embedding of the structunits dimensional-quantity library
(src/structunits) and proofs of the frozen claims about it.

Python floats are modelled as exact rationals (ℚ); Python exceptions are
modelled with `Except PyErr`.  Every definition is translated from the
source files named in its doc comment.
-/

namespace StructUnits

/-- Python runtime errors surfaced by the embedded operations.
`valueError` models the `ValueError` raised by `Result._confirm_units_match`,
`Result._confirm_unitless` and the empty-input checks; `attributeError`
models access to an enum member that `unit_type.py` does not define;
`zeroDivisionError` models Python float division by zero. -/
inductive PyErr
  | valueError
  | attributeError
  | zeroDivisionError
  deriving DecidableEq, Repr

/-- Force-Length-Time exponent triple, from `src/structunits/flt.py`
(class `FLT`, fields `force_degree`, `length_degree`, `time_degree`;
equality is structural, `FLT.__eq__`). -/
structure FLT where
  force_degree : ℤ
  length_degree : ℤ
  time_degree : ℤ
  deriving DecidableEq, Repr

namespace FLT

/-- Module-level singleton `AREA = FLT(0, 2, 0)` from flt.py. -/
def AREA : FLT := ⟨0, 2, 0⟩

/-- Module-level singleton `DENSITY = FLT(1, -3, 0)` from flt.py. -/
def DENSITY : FLT := ⟨1, -3, 0⟩

/-- Module-level singleton `FORCE = FLT(1, 0, 0)` from flt.py. -/
def FORCE : FLT := ⟨1, 0, 0⟩

/-- Module-level singleton `FORCE_PER_LENGTH = FLT(1, -1, 0)` from flt.py. -/
def FORCE_PER_LENGTH : FLT := ⟨1, -1, 0⟩

/-- Module-level singleton `FLEXURAL_STIFFNESS = FLT(1, 2, 0)` from flt.py. -/
def FLEXURAL_STIFFNESS : FLT := ⟨1, 2, 0⟩

/-- Module-level singleton `LENGTH = FLT(0, 1, 0)` from flt.py. -/
def LENGTH : FLT := ⟨0, 1, 0⟩

/-- Module-level singleton `LENGTH_CUBED = FLT(0, 3, 0)` from flt.py. -/
def LENGTH_CUBED : FLT := ⟨0, 3, 0⟩

/-- Module-level singleton `LENGTH_TO_THE_4TH = FLT(0, 4, 0)` from flt.py. -/
def LENGTH_TO_THE_4TH : FLT := ⟨0, 4, 0⟩

/-- Module-level singleton `LENGTH_TO_THE_6TH = FLT(0, 6, 0)` from flt.py. -/
def LENGTH_TO_THE_6TH : FLT := ⟨0, 6, 0⟩

/-- Module-level singleton `MOMENT = FLT(1, 1, 0)` from flt.py. -/
def MOMENT : FLT := ⟨1, 1, 0⟩

/-- Module-level singleton `STRESS = FLT(1, -2, 0)` from flt.py. -/
def STRESS : FLT := ⟨1, -2, 0⟩

/-- Module-level singleton `TIME = FLT(0, 0, 1)` from flt.py. -/
def TIME : FLT := ⟨0, 0, 1⟩

/-- Module-level singleton `UNITLESS = FLT(0, 0, 0)` from flt.py. -/
def UNITLESS : FLT := ⟨0, 0, 0⟩

/-- Module-level singleton `ACCELERATION = FLT(0, 1, -2)` from flt.py. -/
def ACCELERATION : FLT := ⟨0, 1, -2⟩

/-- Componentwise addition, `FLT.__add__` from flt.py. -/
def add (a b : FLT) : FLT :=
  ⟨a.force_degree + b.force_degree, a.length_degree + b.length_degree,
    a.time_degree + b.time_degree⟩

/-- Componentwise subtraction, `FLT.__sub__` from flt.py. -/
def sub (a b : FLT) : FLT :=
  ⟨a.force_degree - b.force_degree, a.length_degree - b.length_degree,
    a.time_degree - b.time_degree⟩

/-- Componentwise negation, `FLT.__neg__` from flt.py. -/
def neg (a : FLT) : FLT :=
  ⟨-a.force_degree, -a.length_degree, -a.time_degree⟩

end FLT

/-- The snap tolerance `1e-10` used by `FLT.__mul__` and `FLT.__truediv__`
in flt.py. -/
def nearTol : ℚ := 1 / 10 ^ 10

/-- Whether a rational is within the snap tolerance of its nearest integer:
the test `abs(x - round(x)) < 1e-10` performed by `_snap` in `FLT.__mul__`
and by `FLT.__truediv__` in flt.py.  Python rounds half to even while
Mathlib `round` rounds half up, but the two agree whenever the distance to
the nearest integer is below `1/2`, which is the only case in which the
comparison can succeed, so the branch taken is the same. -/
def isNearInt (q : ℚ) : Bool := decide (|q - round q| < nearTol)

namespace FLT

/-- Multiplication of an FLT by an integer scalar, the `isinstance(other,
int)` path of `FLT.__mul__` in flt.py: plain componentwise multiplication,
with no snapping. -/
def mulInt (a : FLT) (n : ℤ) : FLT :=
  ⟨a.force_degree * n, a.length_degree * n, a.time_degree * n⟩

/-- Multiplication of an FLT by a float scalar, the `isinstance(other,
float)` path of `FLT.__mul__` in flt.py: each component is snapped to the
nearest integer when within `1e-10` of it; if any component fails to snap
the result is the `UNITLESS` singleton. -/
def mulFloat (a : FLT) (x : ℚ) : FLT :=
  let F : ℚ := (a.force_degree : ℚ) * x
  let L : ℚ := (a.length_degree : ℚ) * x
  let T : ℚ := (a.time_degree : ℚ) * x
  if isNearInt F && isNearInt L && isNearInt T then
    ⟨round F, round L, round T⟩
  else
    UNITLESS

/-- Division of an FLT by a scalar, `FLT.__truediv__` from flt.py.  Python
float division by zero raises `ZeroDivisionError`; otherwise each component
is divided and the triple is returned snapped when every component is
within `1e-10` of an integer, else the `UNITLESS` singleton. -/
def divByScalar (a : FLT) (n : ℚ) : Except PyErr FLT :=
  if n = 0 then .error .zeroDivisionError
  else
    let F : ℚ := (a.force_degree : ℚ) / n
    let L : ℚ := (a.length_degree : ℚ) / n
    let T : ℚ := (a.time_degree : ℚ) / n
    if isNearInt F && isNearInt L && isNearInt T then
      .ok ⟨round F, round L, round T⟩
    else
      .ok UNITLESS

end FLT

/-- The `UnitType` enum from `src/structunits/unit_type.py`.  It defines
exactly these ten members; in particular it has no `DENSITY`,
`FLEXURAL_STIFFNESS`, `LENGTH_TO_THE_6TH`, `TIME` or `ACCELERATION`
member, although `FLT.get_type` in flt.py refers to all five. -/
inductive UnitType
  | unitless
  | force
  | length
  | area
  | length_cubed
  | length_to_the_4th
  | moment
  | force_per_length
  | stress
  | undefined
  deriving DecidableEq, Repr

/-- Classification `FLT.get_type` from flt.py, translated branch by branch
in source order.  The branches for `DENSITY`, `FLEXURAL_STIFFNESS`,
`LENGTH_TO_THE_6TH`, `TIME` and `ACCELERATION` evaluate `UnitType.DENSITY`
etc., attributes that the `UnitType` enum in unit_type.py does not define,
so at runtime they raise `AttributeError`; those branches are therefore
embedded as `.error .attributeError`. -/
def FLT.get_type (a : FLT) : Except PyErr UnitType :=
  if a = FLT.AREA then .ok .area
  else if a = FLT.DENSITY then .error .attributeError
  else if a = FLT.FORCE then .ok .force
  else if a = FLT.FORCE_PER_LENGTH then .ok .force_per_length
  else if a = FLT.FLEXURAL_STIFFNESS then .error .attributeError
  else if a = FLT.LENGTH then .ok .length
  else if a = FLT.LENGTH_CUBED then .ok .length_cubed
  else if a = FLT.LENGTH_TO_THE_4TH then .ok .length_to_the_4th
  else if a = FLT.LENGTH_TO_THE_6TH then .error .attributeError
  else if a = FLT.MOMENT then .ok .moment
  else if a = FLT.STRESS then .ok .stress
  else if a = FLT.TIME then .error .attributeError
  else if a = FLT.UNITLESS then .ok .unitless
  else if a = FLT.ACCELERATION then .error .attributeError
  else .ok .undefined

/-- The concrete Python class of a quantity: the `Result` subclasses under
`src/structunits/specific_units/`. -/
inductive Family
  | length
  | force
  | moment
  | force_per_length
  | stress
  | length_to_the_4th
  | length_cubed
  | area
  | unitless
  | undefined
  deriving DecidableEq, Repr

/-- A quantity: the abstract base class `Result` from
`src/structunits/result.py`, holding the concrete subclass (`family`), the
stored `flt` and the magnitude `value` in standard units.  The display and
input units are irrelevant to the claims and omitted. -/
structure Result where
  family : Family
  flt : FLT
  value : ℚ
  deriving DecidableEq, Repr

namespace Result

/-- The FLT each concrete constructor stores via `Result.__init__`:
`FLT.LENGTH` for `Length`, …, and `FLT.UNITLESS` for `Unitless` and for
`Undefined.create_with_standard_units` (undefined.py line 69). -/
def familyFLT : Family → FLT
  | .length => FLT.LENGTH
  | .force => FLT.FORCE
  | .moment => FLT.MOMENT
  | .force_per_length => FLT.FORCE_PER_LENGTH
  | .stress => FLT.STRESS
  | .length_to_the_4th => FLT.LENGTH_TO_THE_4TH
  | .length_cubed => FLT.LENGTH_CUBED
  | .area => FLT.AREA
  | .unitless => FLT.UNITLESS
  | .undefined => FLT.UNITLESS

/-- The per-family equality tolerance `equality_tolerance`, values taken
from the `_EQ_TOL` constants of each class under specific_units/ (length.py
1e-3, force.py 1e-4, moment.py 1e-2, force_per_length.py 1e-4, stress.py
1e-4, length_to_the_4th.py 1e-3, length_cubed.py 1e-3, area.py 1e-3) and
the literal `1e-10` returned by unitless.py and undefined.py. -/
def equality_tolerance : Family → ℚ
  | .length => 1 / 10 ^ 3
  | .force => 1 / 10 ^ 4
  | .moment => 1 / 10 ^ 2
  | .force_per_length => 1 / 10 ^ 4
  | .stress => 1 / 10 ^ 4
  | .length_to_the_4th => 1 / 10 ^ 3
  | .length_cubed => 1 / 10 ^ 3
  | .area => 1 / 10 ^ 3
  | .unitless => 1 / 10 ^ 10
  | .undefined => 1 / 10 ^ 10

/-- `create_with_standard_units` of each concrete class.  Every family's
default unit is its standard unit with conversion factor `1.0` (INCH,
KIP, KIP_INCH, KIP_PER_INCH, KSI, INCHES_TO_THE_4TH, INCHES_CUBED,
SQUARE_INCH), so the stored magnitude equals the argument; for the
`Undefined` class it returns `Undefined(FLT.UNITLESS, value)`
(undefined.py line 69) and for `Unitless` it returns `Unitless(value)`. -/
def create_with_standard_units (f : Family) (v : ℚ) : Result :=
  ⟨f, familyFLT f, v⟩

end Result

/-- Constructor `Undefined.__init__` from
`src/structunits/specific_units/undefined.py`: an `Undefined` carries an
arbitrary FLT explicitly. -/
def Undefined.make (flt : FLT) (v : ℚ) : Result :=
  ⟨.undefined, flt, v⟩

namespace Result

/-- Dispatch `Result._build_typed_result` from result.py, translated branch
by branch.  The source tests `unit_type` against `UnitType.LENGTH`,
`FORCE`, `MOMENT`, `FORCE_PER_LENGTH`, `STRESS`, `LENGTH_TO_THE_4TH`,
`LENGTH_CUBED` and `UNITLESS` and otherwise returns `Undefined(flt,
value)`; there is no test for `UnitType.AREA`, so an `area` classification
falls through to the `Undefined` constructor. -/
def build_typed_result (flt : FLT) (v : ℚ) : Except PyErr Result :=
  match flt.get_type with
  | .error e => .error e
  | .ok ut =>
  match ut with
  | .length => .ok (create_with_standard_units .length v)
  | .force => .ok (create_with_standard_units .force v)
  | .moment => .ok (create_with_standard_units .moment v)
  | .force_per_length => .ok (create_with_standard_units .force_per_length v)
  | .stress => .ok (create_with_standard_units .stress v)
  | .length_to_the_4th => .ok (create_with_standard_units .length_to_the_4th v)
  | .length_cubed => .ok (create_with_standard_units .length_cubed v)
  | .unitless => .ok (create_with_standard_units .unitless v)
  | .area => .ok (Undefined.make flt v)
  | .undefined => .ok (Undefined.make flt v)

/-- `Result._confirm_units_match` from result.py: raises `ValueError` when
the two FLTs differ. -/
def confirm_units_match (a b : Result) : Except PyErr Unit :=
  if a.flt = b.flt then .ok () else .error .valueError

/-- `Result.__eq__` from result.py.  The `self is other` early return is
omitted: identical operands have equal fields and zero magnitude
difference, and every tolerance is nonnegative, so the tolerance branch
returns `True` for them as well.  The `isinstance` guard is vacuous here
because both operands are quantities. -/
def eq (a b : Result) : Bool :=
  if a.flt = b.flt then decide (|a.value - b.value| ≤ equality_tolerance a.family)
  else false

/-- `Result.__lt__` from result.py: `_confirm_units_match` then a raw
magnitude comparison. -/
def lt (a b : Result) : Except PyErr Bool :=
  match confirm_units_match a b with
  | .error e => .error e
  | .ok _ => .ok (decide (a.value < b.value))

/-- `Result.__le__` from result.py. -/
def le (a b : Result) : Except PyErr Bool :=
  match confirm_units_match a b with
  | .error e => .error e
  | .ok _ => .ok (decide (a.value ≤ b.value))

/-- `Result.__gt__` from result.py. -/
def gt (a b : Result) : Except PyErr Bool :=
  match confirm_units_match a b with
  | .error e => .error e
  | .ok _ => .ok (decide (b.value < a.value))

/-- `Result.__ge__` from result.py. -/
def ge (a b : Result) : Except PyErr Bool :=
  match confirm_units_match a b with
  | .error e => .error e
  | .ok _ => .ok (decide (b.value ≤ a.value))

/-- The quantity-operand path of `Result.__add__` from result.py:
`_confirm_units_match` then `_build_typed_result(self.flt, self.value +
other.value)`. -/
def add (a b : Result) : Except PyErr Result :=
  match confirm_units_match a b with
  | .error e => .error e
  | .ok _ => build_typed_result a.flt (a.value + b.value)

/-- The quantity-operand path of `Result.__sub__` from result.py. -/
def sub (a b : Result) : Except PyErr Result :=
  match confirm_units_match a b with
  | .error e => .error e
  | .ok _ => build_typed_result a.flt (a.value - b.value)

/-- The quantity-operand path of `Result.__mul__` from result.py:
`_build_typed_result(self.flt + other.flt, self.value * other.value)`.
No subclass overrides this path (`Undefined.__mul__` and
`Length.__truediv__` delegate quantity operands to the base class). -/
def mul (a b : Result) : Except PyErr Result :=
  build_typed_result (a.flt.add b.flt) (a.value * b.value)

/-- The quantity-operand path of `Result.__truediv__` from result.py.
Python evaluates `self.value / other.value` before dispatching, raising
`ZeroDivisionError` when the divisor magnitude is zero. -/
def div (a b : Result) : Except PyErr Result :=
  if b.value = 0 then .error .zeroDivisionError
  else build_typed_result (a.flt.sub b.flt) (a.value / b.value)

/-- The scalar path of `Result.__mul__`: the base class calls
`self.__class__.create_with_standard_units(self.value * other)`, while
`Undefined.__mul__` (undefined.py lines 40-43) overrides it to
`Undefined(self.flt, self.value * other)`, preserving its own FLT. -/
def mulScalar (a : Result) (c : ℚ) : Result :=
  match a.family with
  | .undefined => Undefined.make a.flt (a.value * c)
  | f => create_with_standard_units f (a.value * c)

/-- The scalar path of `Result.__rmul__`, with the `Undefined.__rmul__`
override (undefined.py lines 45-48). -/
def rmulScalar (c : ℚ) (a : Result) : Result :=
  match a.family with
  | .undefined => Undefined.make a.flt (c * a.value)
  | f => create_with_standard_units f (c * a.value)

/-- The scalar path of `Result.__truediv__`, with the
`Undefined.__truediv__` override (undefined.py lines 50-53).  Python float
division by a zero scalar raises `ZeroDivisionError`. -/
def divScalar (a : Result) (c : ℚ) : Except PyErr Result :=
  if c = 0 then .error .zeroDivisionError
  else
    match a.family with
    | .undefined => .ok (Undefined.make a.flt (a.value / c))
    | f => .ok (create_with_standard_units f (a.value / c))

/-- One step of the minimum scan in `Result.min` (result.py lines 238-240):
keep the accumulator unless the next element is strictly smaller. -/
def pickMin (m r : Result) : Result :=
  if r.value < m.value then r else m

/-- One step of the maximum scan in `Result.max` (result.py lines 265-268). -/
def pickMax (m r : Result) : Result :=
  if r.value > m.value then r else m

/-- The two-argument form of `Result.min` (result.py lines 242-246):
`_confirm_units_match(a, b)` then `a if a.value < b.value else b`. -/
def min2 (a b : Result) : Except PyErr Result :=
  match confirm_units_match a b with
  | .error e => .error e
  | .ok _ => .ok (if a.value < b.value then a else b)

/-- The two-argument form of `Result.max` (result.py lines 270-274). -/
def max2 (a b : Result) : Except PyErr Result :=
  match confirm_units_match a b with
  | .error e => .error e
  | .ok _ => .ok (if a.value > b.value then a else b)

/-- The list form of `Result.min` (result.py lines 228-241): raise
`ValueError` on an empty list, check every later element's FLT against the
first element's, then scan for the smallest magnitude. -/
def minList (l : List Result) : Except PyErr Result :=
  match l with
  | [] => .error .valueError
  | x :: xs =>
    if xs.all (fun r => decide (r.flt = x.flt)) then .ok (xs.foldl pickMin x)
    else .error .valueError

/-- The list form of `Result.max` (result.py lines 257-269). -/
def maxList (l : List Result) : Except PyErr Result :=
  match l with
  | [] => .error .valueError
  | x :: xs =>
    if xs.all (fun r => decide (r.flt = x.flt)) then .ok (xs.foldl pickMax x)
    else .error .valueError

end Result

/-- Modelled from the spec: `structunits/constants.py` (imported by
length_unit.py and the other unit catalogs) is not among the sources.  The
spec fixes inch as the standard length unit and gives `1 ft = 12 in`
(section 8 end-to-end example); metric constants follow the definitions the
spec presumes (1 m = 1000 mm = 100 cm, 1 in = 2.54 cm, hence
10000/254 inches per meter). -/
def INCHES_PER_FOOT : ℚ := 12

/-- Modelled from the spec: inches per meter, see `INCHES_PER_FOOT`. -/
def INCHES_PER_METER : ℚ := 10000 / 254

/-- Modelled from the spec: millimeters per meter, see `INCHES_PER_FOOT`. -/
def MILLIMETERS_PER_METER : ℚ := 1000

/-- Modelled from the spec: centimeters per meter, see `INCHES_PER_FOOT`. -/
def CENTIMETERS_PER_METER : ℚ := 100

/-- The `LengthUnit` enum from
`src/structunits/specific_units/length_unit.py`. -/
inductive LengthUnit
  | inch
  | foot
  | millimeter
  | centimeter
  | meter
  deriving DecidableEq, Repr

/-- `LengthUnit.get_conversion_factor`: the factor converting FROM this
unit TO inches, from the member tuples in length_unit.py. -/
def LengthUnit.get_conversion_factor : LengthUnit → ℚ
  | .inch => 1
  | .foot => INCHES_PER_FOOT
  | .millimeter => INCHES_PER_METER / MILLIMETERS_PER_METER
  | .centimeter => INCHES_PER_METER / CENTIMETERS_PER_METER
  | .meter => INCHES_PER_METER

namespace Length

/-- `Length.normalize_value` from length.py: `value * _TO_STD[unit]`, where
`_TO_STD` maps each unit to `get_conversion_factor()` (every LengthUnit is
a key, so the `KeyError` branch is unreachable). -/
def normalize_value (v : ℚ) (u : LengthUnit) : ℚ :=
  v * u.get_conversion_factor

/-- `Length.__init__` from length.py: normalize to inches and store with
`FLT.LENGTH`. -/
def make (v : ℚ) (u : LengthUnit) : Result :=
  ⟨.length, FLT.LENGTH, normalize_value v u⟩

/-- `Length.to_value` from length.py: `self.value * _FROM_STD[target]`,
where `_FROM_STD` maps each unit to `1.0 / get_conversion_factor()`. -/
def to_value (a : Result) (u : LengthUnit) : ℚ :=
  a.value * (1 / u.get_conversion_factor)

/-- `Length.from_in` from length.py. -/
def from_in (v : ℚ) : Result := make v .inch

/-- `Length.from_ft` from length.py. -/
def from_ft (v : ℚ) : Result := make v .foot

end Length

/-
Helper lemmas.
-/

/-- A rational within `1/2` of an integer rounds to that integer. -/
theorem round_eq_of_near (q : ℚ) (i : ℤ) (h : |q - i| < 1 / 2) : round q = i := by
  have h1 := abs_lt.mp h
  rw [round_eq]
  refine Int.floor_eq_iff.mpr ⟨?_, ?_⟩
  · linarith [h1.1]
  · linarith [h1.2]

/-- `isNearInt` holds exactly when some integer lies within the snap
tolerance. -/
theorem isNearInt_iff (q : ℚ) : isNearInt q = true ↔ ∃ i : ℤ, |q - i| < nearTol := by
  unfold isNearInt
  rw [decide_eq_true_eq]
  constructor
  · intro h
    exact ⟨round q, h⟩
  · rintro ⟨i, hi⟩
    have hr : round q = i := round_eq_of_near q i (hi.trans_le (by norm_num [nearTol]))
    rw [hr]
    exact hi

/-- The minimum scan of `Result.min` returns the seed or an element of the
scanned list. -/
theorem foldl_pickMin_choice (xs : List Result) :
    ∀ x : Result, xs.foldl Result.pickMin x = x ∨ xs.foldl Result.pickMin x ∈ xs := by
  induction xs with
  | nil => intro x; exact Or.inl rfl
  | cons r rs ih =>
    intro x
    simp only [List.foldl_cons]
    rcases ih (Result.pickMin x r) with h | h
    · rw [h]
      unfold Result.pickMin
      split
    -- when the head is smaller it is returned, else the seed survives
      · exact Or.inr (List.mem_cons_self _ _)
      · exact Or.inl rfl
    · exact Or.inr (List.mem_cons_of_mem _ h)

/-- The minimum scan of `Result.min` is bounded by the seed and by every
scanned element. -/
theorem foldl_pickMin_le (xs : List Result) :
    ∀ x : Result, (xs.foldl Result.pickMin x).value ≤ x.value ∧
      ∀ r ∈ xs, (xs.foldl Result.pickMin x).value ≤ r.value := by
  induction xs with
  | nil => intro x; exact ⟨le_refl _, by simp⟩
  | cons r rs ih =>
    intro x
    simp only [List.foldl_cons]
    obtain ⟨h1, h2⟩ := ih (Result.pickMin x r)
    have hx : (Result.pickMin x r).value ≤ x.value ∧ (Result.pickMin x r).value ≤ r.value := by
      unfold Result.pickMin
      split
      · next hc => exact ⟨le_of_lt hc, le_refl _⟩
      · next hc => exact ⟨le_refl _, le_of_not_lt hc⟩
    refine ⟨h1.trans hx.1, ?_⟩
    intro s hs
    rcases List.mem_cons.mp hs with rfl | hs
    · exact h1.trans hx.2
    · exact h2 s hs

/-- The maximum scan of `Result.max` returns the seed or an element of the
scanned list. -/
theorem foldl_pickMax_choice (xs : List Result) :
    ∀ x : Result, xs.foldl Result.pickMax x = x ∨ xs.foldl Result.pickMax x ∈ xs := by
  induction xs with
  | nil => intro x; exact Or.inl rfl
  | cons r rs ih =>
    intro x
    simp only [List.foldl_cons]
    rcases ih (Result.pickMax x r) with h | h
    · rw [h]
      unfold Result.pickMax
      split
      · exact Or.inr (List.mem_cons_self _ _)
      · exact Or.inl rfl
    · exact Or.inr (List.mem_cons_of_mem _ h)

/-- The maximum scan of `Result.max` dominates the seed and every scanned
element. -/
theorem foldl_pickMax_ge (xs : List Result) :
    ∀ x : Result, x.value ≤ (xs.foldl Result.pickMax x).value ∧
      ∀ r ∈ xs, r.value ≤ (xs.foldl Result.pickMax x).value := by
  induction xs with
  | nil => intro x; exact ⟨le_refl _, by simp⟩
  | cons r rs ih =>
    intro x
    simp only [List.foldl_cons]
    obtain ⟨h1, h2⟩ := ih (Result.pickMax x r)
    have hx : x.value ≤ (Result.pickMax x r).value ∧ r.value ≤ (Result.pickMax x r).value := by
      unfold Result.pickMax
      split
      · next hc => exact ⟨le_of_lt hc, le_refl _⟩
      · next hc => exact ⟨le_refl _, le_of_not_lt hc⟩
    refine ⟨hx.1.trans h1, ?_⟩
    intro s hs
    rcases List.mem_cons.mp hs with rfl | hs
    · exact hx.2.trans h1
    · exact h2 s hs

/-
Claim theorems.
-/

/-- Claim C1.  The claim says `Length * Length` yields an Area whose
standard magnitude is the product, with `Length.from_ft(2) *
Length.from_ft(3)` converting to 6.0 square feet.  The code disagrees:
`FLT.get_type` does classify the product dimension as `UnitType.AREA`, but
`Result._build_typed_result` has no `UnitType.AREA` branch, so the product
falls through to `Undefined(FLT(0,2,0), 864.0)` — not an Area — and
converting that to square feet raises `ValueError`
(`Undefined.convert_to`).  The magnitude 864 in² would indeed be 6 ft². -/
theorem C1_length_mul_length_not_area :
    Result.mul (Length.from_ft 2) (Length.from_ft 3) = .ok (Undefined.make FLT.AREA 864) ∧
    (Undefined.make FLT.AREA 864).family ≠ Family.area := by
  constructor
  · norm_num [Result.mul, Length.from_ft, Length.make, Length.normalize_value,
      LengthUnit.get_conversion_factor, INCHES_PER_FOOT, FLT.add, FLT.LENGTH,
      Result.build_typed_result, FLT.get_type, Undefined.make, FLT.AREA, FLT.DENSITY,
      FLT.FORCE, FLT.FORCE_PER_LENGTH, FLT.FLEXURAL_STIFFNESS, FLT.LENGTH_CUBED,
      FLT.LENGTH_TO_THE_4TH, FLT.LENGTH_TO_THE_6TH, FLT.MOMENT, FLT.STRESS, FLT.TIME,
      FLT.UNITLESS, FLT.ACCELERATION]
  · decide

/-- Claim C2.  The claim says multiplication of two quantities always
succeeds, and an unmatched result dimension yields the Undefined family.
The code disagrees: `Moment * Length` produces dimension (1,2,0), which
`FLT.get_type` matches against `FLT.FLEXURAL_STIFFNESS` and then evaluates
`UnitType.FLEXURAL_STIFFNESS` — an attribute `unit_type.py` never defines —
so the multiplication raises `AttributeError` instead of returning an
Undefined carrying (1,2,0).  Likewise `Force / LengthCubed` hits the
missing `UnitType.DENSITY` member. -/
theorem C2_mul_raises_on_missing_enum_member :
    Result.mul (Result.create_with_standard_units .moment 1)
        (Result.create_with_standard_units .length 1) = .error .attributeError ∧
    Result.div (Result.create_with_standard_units .force 1)
        (Result.create_with_standard_units .length_cubed 1) = .error .attributeError := by
  constructor
  · norm_num [Result.mul, Result.create_with_standard_units, Result.familyFLT,
      FLT.add, FLT.LENGTH, Result.build_typed_result, FLT.get_type, FLT.AREA, FLT.DENSITY,
      FLT.FORCE, FLT.FORCE_PER_LENGTH, FLT.FLEXURAL_STIFFNESS, FLT.MOMENT]
  · norm_num [Result.div, Result.create_with_standard_units, Result.familyFLT,
      FLT.sub, FLT.LENGTH_CUBED, Result.build_typed_result, FLT.get_type, FLT.AREA,
      FLT.DENSITY, FLT.FORCE]

/-- Claim C3.  The claim says `a + b` on identical dimensions returns the
same concrete family as the operands and that the dispatch registry is
never consulted for add/sub.  The code disagrees: `Result.__add__` rebuilds
the sum through `_build_typed_result`, and because that dispatcher has no
`UnitType.AREA` branch, `Area + Area` comes back as an `Undefined` instance
instead of an Area (the subtraction path is identical). -/
theorem C3_area_plus_area_not_area :
    Result.add (Result.create_with_standard_units .area 1)
        (Result.create_with_standard_units .area 2) = .ok (Undefined.make FLT.AREA 3) ∧
    Result.sub (Result.create_with_standard_units .area 3)
        (Result.create_with_standard_units .area 1) = .ok (Undefined.make FLT.AREA 2) ∧
    (Undefined.make FLT.AREA 3).family ≠ Family.area := by
  refine ⟨?_, ?_, by decide⟩ <;>
    norm_num [Result.add, Result.sub, Result.confirm_units_match,
      Result.create_with_standard_units, Result.familyFLT,
      Result.build_typed_result, FLT.get_type, Undefined.make, FLT.AREA]

/-- Claim C4 (confirmed).  `Result.__eq__` returns `True` exactly when the
two dimensions are identical and the magnitude difference is within the
left operand's per-family tolerance; being a total Boolean function it
never raises, and mismatched dimensions simply compare unequal. -/
theorem C4_eq_characterization (a b : Result) :
    Result.eq a b = true ↔
      a.flt = b.flt ∧ |a.value - b.value| ≤ Result.equality_tolerance a.family := by
  unfold Result.eq
  by_cases h : a.flt = b.flt <;> simp [h]

/-- Claim C5 (confirmed).  Constructing a Length from `(v, U)` and reading
it back in `U` returns exactly `v` (hence well within the 1e-9 relative
tolerance the claim allows), and reading it in another unit `U2` returns
exactly `v * (U1.factor / U2.factor)`. -/
theorem C5_roundtrip_and_conversion (v : ℚ) (u u1 u2 : LengthUnit) :
    Length.to_value (Length.make v u) u = v ∧
    Length.to_value (Length.make v u1) u2
      = v * (u1.get_conversion_factor / u2.get_conversion_factor) := by
  constructor
  · cases u <;>
      norm_num [Length.to_value, Length.make, Length.normalize_value,
        LengthUnit.get_conversion_factor, INCHES_PER_FOOT, INCHES_PER_METER,
        MILLIMETERS_PER_METER, CENTIMETERS_PER_METER] <;>
      ring
  · simp only [Length.to_value, Length.make, Length.normalize_value, one_div,
      div_eq_mul_inv]
    ring

/-- Claim C6 (confirmed).  Scaling an FLT by a float snaps each component
to the integer it is within the 1e-10 tolerance of (the code compares with
strict `<`), and collapses to the dimensionless (0,0,0) when any component
is not within tolerance of an integer; dividing by a nonzero scalar follows
the same rule. -/
theorem C6_scale_float_and_divide (a : FLT) (x n : ℚ) (hn : n ≠ 0) :
    (∀ i j k : ℤ,
      |(a.force_degree : ℚ) * x - i| < nearTol →
      |(a.length_degree : ℚ) * x - j| < nearTol →
      |(a.time_degree : ℚ) * x - k| < nearTol →
      a.mulFloat x = ⟨i, j, k⟩) ∧
    ((¬ ∃ i : ℤ, |(a.force_degree : ℚ) * x - i| < nearTol) ∨
     (¬ ∃ j : ℤ, |(a.length_degree : ℚ) * x - j| < nearTol) ∨
     (¬ ∃ k : ℤ, |(a.time_degree : ℚ) * x - k| < nearTol) →
      a.mulFloat x = FLT.UNITLESS) ∧
    (∀ i j k : ℤ,
      |(a.force_degree : ℚ) / n - i| < nearTol →
      |(a.length_degree : ℚ) / n - j| < nearTol →
      |(a.time_degree : ℚ) / n - k| < nearTol →
      a.divByScalar n = .ok ⟨i, j, k⟩) ∧
    ((¬ ∃ i : ℤ, |(a.force_degree : ℚ) / n - i| < nearTol) ∨
     (¬ ∃ j : ℤ, |(a.length_degree : ℚ) / n - j| < nearTol) ∨
     (¬ ∃ k : ℤ, |(a.time_degree : ℚ) / n - k| < nearTol) →
      a.divByScalar n = .ok FLT.UNITLESS) := by
  have tol_half : nearTol ≤ 1 / 2 := by norm_num [nearTol]
  refine ⟨?_, ?_, ?_, ?_⟩
  · intro i j k h1 h2 h3
    have n1 : isNearInt ((a.force_degree : ℚ) * x) = true := (isNearInt_iff _).mpr ⟨i, h1⟩
    have n2 : isNearInt ((a.length_degree : ℚ) * x) = true := (isNearInt_iff _).mpr ⟨j, h2⟩
    have n3 : isNearInt ((a.time_degree : ℚ) * x) = true := (isNearInt_iff _).mpr ⟨k, h3⟩
    have r1 : round ((a.force_degree : ℚ) * x) = i :=
      round_eq_of_near _ _ (h1.trans_le tol_half)
    have r2 : round ((a.length_degree : ℚ) * x) = j :=
      round_eq_of_near _ _ (h2.trans_le tol_half)
    have r3 : round ((a.time_degree : ℚ) * x) = k :=
      round_eq_of_near _ _ (h3.trans_le tol_half)
    simp [FLT.mulFloat, n1, n2, n3, r1, r2, r3]
  · rintro (h | h | h)
    · have n1 : isNearInt ((a.force_degree : ℚ) * x) = false := by
        rw [Bool.eq_false_iff]
        intro ht
        exact h ((isNearInt_iff _).mp ht)
      simp [FLT.mulFloat, n1]
    · have n2 : isNearInt ((a.length_degree : ℚ) * x) = false := by
        rw [Bool.eq_false_iff]
        intro ht
        exact h ((isNearInt_iff _).mp ht)
      simp [FLT.mulFloat, n2]
    · have n3 : isNearInt ((a.time_degree : ℚ) * x) = false := by
        rw [Bool.eq_false_iff]
        intro ht
        exact h ((isNearInt_iff _).mp ht)
      simp [FLT.mulFloat, n3]
  · intro i j k h1 h2 h3
    have n1 : isNearInt ((a.force_degree : ℚ) / n) = true := (isNearInt_iff _).mpr ⟨i, h1⟩
    have n2 : isNearInt ((a.length_degree : ℚ) / n) = true := (isNearInt_iff _).mpr ⟨j, h2⟩
    have n3 : isNearInt ((a.time_degree : ℚ) / n) = true := (isNearInt_iff _).mpr ⟨k, h3⟩
    have r1 : round ((a.force_degree : ℚ) / n) = i :=
      round_eq_of_near _ _ (h1.trans_le tol_half)
    have r2 : round ((a.length_degree : ℚ) / n) = j :=
      round_eq_of_near _ _ (h2.trans_le tol_half)
    have r3 : round ((a.time_degree : ℚ) / n) = k :=
      round_eq_of_near _ _ (h3.trans_le tol_half)
    simp [FLT.divByScalar, hn, n1, n2, n3, r1, r2, r3]
  · rintro (h | h | h)
    · have n1 : isNearInt ((a.force_degree : ℚ) / n) = false := by
        rw [Bool.eq_false_iff]
        intro ht
        exact h ((isNearInt_iff _).mp ht)
      simp [FLT.divByScalar, hn, n1]
    · have n2 : isNearInt ((a.length_degree : ℚ) / n) = false := by
        rw [Bool.eq_false_iff]
        intro ht
        exact h ((isNearInt_iff _).mp ht)
      simp [FLT.divByScalar, hn, n2]
    · have n3 : isNearInt ((a.time_degree : ℚ) / n) = false := by
        rw [Bool.eq_false_iff]
        intro ht
        exact h ((isNearInt_iff _).mp ht)
      simp [FLT.divByScalar, hn, n3]

/-- Witness for C6: scaling the Area dimension (0,2,0) by the float `0.5`
snaps to the Length dimension (0,1,0), and dividing it by the scalar 2
does the same. -/
theorem C6_witness :
    FLT.mulFloat FLT.AREA (1 / 2) = FLT.LENGTH ∧
    FLT.divByScalar FLT.AREA 2 = .ok FLT.LENGTH := by
  constructor
  · exact (C6_scale_float_and_divide FLT.AREA (1 / 2) 2 (by norm_num)).1 0 1 0
      (by norm_num [FLT.AREA, nearTol]) (by norm_num [FLT.AREA, nearTol])
      (by norm_num [FLT.AREA, nearTol])
  · exact (C6_scale_float_and_divide FLT.AREA (1 / 2) 2 (by norm_num)).2.2.1 0 1 0
      (by norm_num [FLT.AREA, nearTol]) (by norm_num [FLT.AREA, nearTol])
      (by norm_num [FLT.AREA, nearTol])

/-- Claim C7 (confirmed).  Every ordering operator raises the
dimension-mismatch `ValueError` when the two dimensions differ, and
otherwise returns the comparison of the raw standard-unit magnitudes. -/
theorem C7_ordering_requires_same_dimension (a b : Result) :
    (a.flt = b.flt →
      Result.lt a b = .ok (decide (a.value < b.value)) ∧
      Result.le a b = .ok (decide (a.value ≤ b.value)) ∧
      Result.gt a b = .ok (decide (b.value < a.value)) ∧
      Result.ge a b = .ok (decide (b.value ≤ a.value))) ∧
    (a.flt ≠ b.flt →
      Result.lt a b = .error .valueError ∧
      Result.le a b = .error .valueError ∧
      Result.gt a b = .error .valueError ∧
      Result.ge a b = .error .valueError) := by
  constructor <;> intro h <;>
    simp [Result.lt, Result.le, Result.gt, Result.ge, Result.confirm_units_match, h]

/-- Witness for C7: comparing a Length and a Force with `<` raises the
dimension-mismatch error, while `Length.from_in 10 < Length.from_ft 1`
returns `True` (10 in < 12 in). -/
theorem C7_witness :
    Result.lt (Length.from_in 1) (Result.create_with_standard_units .force 1)
      = .error .valueError ∧
    Result.lt (Length.from_in 10) (Length.from_ft 1) = .ok true := by
  constructor
  · exact ((C7_ordering_requires_same_dimension (Length.from_in 1)
      (Result.create_with_standard_units .force 1)).2 (by decide)).1
  · have h := ((C7_ordering_requires_same_dimension (Length.from_in 10)
      (Length.from_ft 1)).1 rfl).1
    rw [h]
    congr 1
    rw [decide_eq_true_eq]
    norm_num [Length.from_in, Length.from_ft, Length.make, Length.normalize_value,
      LengthUnit.get_conversion_factor, INCHES_PER_FOOT]

/-- Claim C8 (confirmed).  The pair forms of `Result.min`/`Result.max`
require identical dimensions (raising the mismatch `ValueError` otherwise)
and return the operand with the smaller/larger magnitude; the list forms
raise on an empty list and on any dimension mismatch among the elements,
and otherwise return an element of the list of minimal/maximal magnitude.
A mismatch among the elements is detected against the first element, which
is equivalent to the existence of a mismatched pair. -/
theorem C8_min_max_behavior (a b x : Result) (xs : List Result) :
    (a.flt = b.flt →
      Result.min2 a b = .ok (if a.value < b.value then a else b) ∧
      Result.max2 a b = .ok (if a.value > b.value then a else b) ∧
      (if a.value < b.value then a else b).value ≤ a.value ∧
      (if a.value < b.value then a else b).value ≤ b.value ∧
      a.value ≤ (if a.value > b.value then a else b).value ∧
      b.value ≤ (if a.value > b.value then a else b).value) ∧
    (a.flt ≠ b.flt →
      Result.min2 a b = .error .valueError ∧
      Result.max2 a b = .error .valueError) ∧
    (Result.minList [] = .error .valueError ∧
      Result.maxList [] = .error .valueError) ∧
    ((∀ r ∈ xs, r.flt = x.flt) →
      Result.minList (x :: xs) = .ok (xs.foldl Result.pickMin x) ∧
      (xs.foldl Result.pickMin x) ∈ x :: xs ∧
      (∀ r ∈ x :: xs, (xs.foldl Result.pickMin x).value ≤ r.value) ∧
      Result.maxList (x :: xs) = .ok (xs.foldl Result.pickMax x) ∧
      (xs.foldl Result.pickMax x) ∈ x :: xs ∧
      (∀ r ∈ x :: xs, r.value ≤ (xs.foldl Result.pickMax x).value)) ∧
    ((∃ r ∈ xs, r.flt ≠ x.flt) →
      Result.minList (x :: xs) = .error .valueError ∧
      Result.maxList (x :: xs) = .error .valueError) := by
  refine ⟨?_, ?_, ?_, ?_, ?_⟩
  · intro h
    refine ⟨?_, ?_, ?_, ?_, ?_, ?_⟩
    · simp [Result.min2, Result.confirm_units_match, h]
    · simp [Result.max2, Result.confirm_units_match, h]
    · split
      · exact le_refl _
      · next hc => exact le_of_not_lt hc
    · split
      · next hc => exact le_of_lt hc
      · exact le_refl _
    · split
      · exact le_refl _
      · next hc => exact le_of_not_lt hc
    · split
      · next hc => exact le_of_lt hc
      · exact le_refl _
  · intro h
    constructor <;> simp [Result.min2, Result.max2, Result.confirm_units_match, h]
  · exact ⟨rfl, rfl⟩
  · intro hall
    have hcheck : xs.all (fun r => decide (r.flt = x.flt)) = true := by
      rw [List.all_eq_true]
      intro r hr
      exact decide_eq_true (hall r hr)
    have hminmem := foldl_pickMin_choice xs x
    have hminle := foldl_pickMin_le xs x
    have hmaxmem := foldl_pickMax_choice xs x
    have hmaxge := foldl_pickMax_ge xs x
    refine ⟨by simp [Result.minList, hcheck], ?_, ?_, by simp [Result.maxList, hcheck], ?_, ?_⟩
    · rcases hminmem with h | h
      · rw [h]; exact List.mem_cons_self _ _
      · exact List.mem_cons_of_mem _ h
    · intro r hr
      rcases List.mem_cons.mp hr with rfl | hr
      · exact hminle.1
      · exact hminle.2 r hr
    · rcases hmaxmem with h | h
      · rw [h]; exact List.mem_cons_self _ _
      · exact List.mem_cons_of_mem _ h
    · intro r hr
      rcases List.mem_cons.mp hr with rfl | hr
      · exact hmaxge.1
      · exact hmaxge.2 r hr
  · rintro ⟨r, hr, hne⟩
    have hcheck : xs.all (fun r => decide (r.flt = x.flt)) = false := by
      rw [Bool.eq_false_iff]
      intro ht
      exact hne (of_decide_eq_true (List.all_eq_true.mp ht r hr))
    constructor <;> simp [Result.minList, Result.maxList, hcheck]

/-- Witness for C8: `min(Length.from_in 10, Length.from_ft 1)` returns the
10-inch operand (10 in < 12 in), the empty list raises, and a list mixing a
Length with a Force raises. -/
theorem C8_witness :
    Result.min2 (Length.from_in 10) (Length.from_ft 1) = .ok (Length.from_in 10) ∧
    Result.minList [] = .error .valueError ∧
    Result.minList [Length.from_in 1, Result.create_with_standard_units .force 1]
      = .error .valueError := by
  refine ⟨?_, ?_, ?_⟩
  · have h := ((C8_min_max_behavior (Length.from_in 10) (Length.from_ft 1)
      (Length.from_in 10) []).1 rfl).1
    rw [h]
    congr 1
    rw [if_pos]
    norm_num [Length.from_in, Length.from_ft, Length.make, Length.normalize_value,
      LengthUnit.get_conversion_factor, INCHES_PER_FOOT]
  · exact (C8_min_max_behavior (Length.from_in 10) (Length.from_ft 1)
      (Length.from_in 10) []).2.2.1.1
  · exact ((C8_min_max_behavior (Length.from_in 10) (Length.from_ft 1)
      (Length.from_in 1) [Result.create_with_standard_units .force 1]).2.2.2.2
      ⟨Result.create_with_standard_units .force 1, by simp, by decide⟩).1

/-- Claim C9 (confirmed).  Equality applies only the left operand's
per-family tolerance, so it is not symmetric: a Length of magnitude 0 and
an Undefined carrying the Length dimension with magnitude 1e-4 differ by
more than the Undefined tolerance 1e-10 but by at most the Length tolerance
1e-3, so the Length equals the Undefined while the Undefined does not equal
the Length. -/
theorem C9_eq_not_symmetric :
    (Length.from_in 0).flt = (Undefined.make FLT.LENGTH (1 / 10 ^ 4)).flt ∧
    Result.equality_tolerance (Length.from_in 0).family = 1 / 10 ^ 3 ∧
    Result.equality_tolerance (Undefined.make FLT.LENGTH (1 / 10 ^ 4)).family = 1 / 10 ^ 10 ∧
    Result.eq (Length.from_in 0) (Undefined.make FLT.LENGTH (1 / 10 ^ 4)) = true ∧
    Result.eq (Undefined.make FLT.LENGTH (1 / 10 ^ 4)) (Length.from_in 0) = false := by
  refine ⟨rfl, rfl, rfl, ?_, ?_⟩ <;>
    norm_num [Result.eq, Length.from_in, Length.make, Length.normalize_value,
      LengthUnit.get_conversion_factor, FLT.LENGTH, Undefined.make,
      Result.equality_tolerance, abs_le]

/-- Claim C10 (confirmed).  The `Undefined` scalar-arithmetic overrides
preserve the instance's exact dimension: `u * c`, `c * u` and (for nonzero
`c`) `u / c` all return an `Undefined` carrying the same FLT with the
magnitude scaled, instead of routing through the generic standard-unit
constructor (which would reset the dimension to dimensionless). -/
theorem C10_undefined_scalar_preserves_flt (f : FLT) (v c : ℚ) :
    Result.mulScalar (Undefined.make f v) c = Undefined.make f (v * c) ∧
    Result.rmulScalar c (Undefined.make f v) = Undefined.make f (c * v) ∧
    (Result.mulScalar (Undefined.make f v) c).flt = f ∧
    (Result.mulScalar (Undefined.make f v) c).family = Family.undefined ∧
    (c ≠ 0 →
      Result.divScalar (Undefined.make f v) c = .ok (Undefined.make f (v / c)) ∧
      ∀ r, Result.divScalar (Undefined.make f v) c = .ok r → r.flt = f) := by
  refine ⟨rfl, rfl, rfl, rfl, fun hc => ?_⟩
  have h : Result.divScalar (Undefined.make f v) c = .ok (Undefined.make f (v / c)) := by
    simp [Result.divScalar, hc, Undefined.make]
  refine ⟨h, ?_⟩
  intro r hr
  rw [h] at hr
  cases hr
  rfl

/-- Witness for C10: dividing the Undefined quantity of dimension (2,0,0)
and magnitude 3 by the scalar 2 keeps the dimension and halves the
magnitude. -/
theorem C10_witness :
    Result.divScalar (Undefined.make ⟨2, 0, 0⟩ 3) 2 = .ok (Undefined.make ⟨2, 0, 0⟩ (3 / 2)) :=
  ((C10_undefined_scalar_preserves_flt ⟨2, 0, 0⟩ 3 2).2.2.2.2 (by norm_num)).1

end StructUnits
